import Mathlib

/-!
Verification development for the transcript-fetch worker
(`backend/workers/fetch_transcripts.py`).

The Python worker is shallowly embedded: the database rows become Lean
structures, SQL statements become pure functions on lists of rows, and the
retry loop becomes a structurally recursive function that also records a
trace of provider calls and sleeps.
-/

namespace FetchTranscripts

/-- One timed caption segment, as produced by the provider's
`to_raw_data()` (a dict with `text`, `start`, `duration`; the Python code
reads only `text` via `seg.get("text", "")`, modelled here by the `text`
field). -/
structure Segment where
  text : String
  startOffset : Int
  duration : Int
deriving DecidableEq, Repr

/-- `class FetchStatus(Enum)` — status codes for transcript fetch attempts. -/
inductive FetchStatus where
  | success
  | disabled
  | notFound
  | unavailable
  | rateLimited
  | error
deriving DecidableEq, Repr

/-- The `.value` string of each enum member, as stored in the database. -/
def FetchStatus.value : FetchStatus → String
  | .success => "success"
  | .disabled => "disabled"
  | .notFound => "not_found"
  | .unavailable => "unavailable"
  | .rateLimited => "rate_limited"
  | .error => "error"

/-- A row of `elongoat.youtube_transcripts`.  `fetch_attempts` is nullable in
the schema (the selection query wraps it in `COALESCE(.., 1)`), hence
`Option Int`; `fetched_at` is the write timestamp, modelled as `Option Nat`. -/
structure TranscriptRow where
  video_id : String
  language : Option String
  transcript_text : Option String
  transcript_json : Option (List Segment)
  fetch_status : String
  error_message : Option String
  fetch_attempts : Option Int
  fetched_at : Option Nat
deriving DecidableEq, Repr

/-- A row of `elongoat.youtube_videos` (only the columns the worker reads). -/
structure VideoRow where
  video_id : String
  scraped_at : Nat
deriving DecidableEq, Repr

/-- SQL `COALESCE(a, b)`: the first non-null argument. -/
def coalesce {α : Type} (a b : Option α) : Option α :=
  match a with
  | some x => some x
  | none => b

/-- The `transcript_text` parameter computed by `upsert_transcript`:
`None` unless `transcript` is truthy (non-`None` and non-empty), else
`" ".join([seg.get("text", "") for seg in transcript]).strip()`. -/
def transcript_text_of (transcript : Option (List Segment)) : Option String :=
  match transcript with
  | none => none
  | some segs =>
      if segs.isEmpty then none
      else some ((String.intercalate " " (segs.map Segment.text)).trim)

/-- The `transcript_json` parameter: `Json(transcript) if transcript else None`
(the same truthiness test as for `transcript_text`). -/
def transcript_json_of (transcript : Option (List Segment)) : Option (List Segment) :=
  match transcript with
  | none => none
  | some segs => if segs.isEmpty then none else some segs

/-- `upsert_transcript`: the INSERT .. ON CONFLICT (video_id) DO UPDATE
statement, as a function from the existing row (if any) to the stored row.
The INSERT path does not mention `fetched_at`, so it is left null there;
the UPDATE path sets `fetched_at = NOW()` (the `now` argument), coalesces
the content columns against the stored ones, and increments
`fetch_attempts` (SQL `stored + 1`, null-propagating, hence `Option.map`). -/
def upsert_transcript (existing : Option TranscriptRow) (video_id : String)
    (language : Option String) (transcript : Option (List Segment))
    (status : FetchStatus) (error_message : Option String)
    (attempt_count : Int) (now : Nat) : TranscriptRow :=
  let ttext := transcript_text_of transcript
  let tjson := transcript_json_of transcript
  match existing with
  | none =>
      { video_id := video_id
        language := language
        transcript_text := ttext
        transcript_json := tjson
        fetch_status := status.value
        error_message := error_message
        fetch_attempts := some attempt_count
        fetched_at := none }
  | some old =>
      { video_id := old.video_id
        language := language
        transcript_text := coalesce ttext old.transcript_text
        transcript_json := coalesce tjson old.transcript_json
        fetch_status := status.value
        error_message := error_message
        fetch_attempts := old.fetch_attempts.map (fun a => a + 1)
        fetched_at := some now }

/-- The per-write arguments of one `upsert_transcript` call (everything but
the connection and the video id). -/
structure UpsertArgs where
  language : Option String
  transcript : Option (List Segment)
  status : FetchStatus
  error_message : Option String
  attempt_count : Int
  now : Nat
deriving Repr

/-- One `upsert_transcript` call against the current state of the row. -/
def applyUpsert (vid : String) (st : Option TranscriptRow) (w : UpsertArgs) :
    TranscriptRow :=
  upsert_transcript st vid w.language w.transcript w.status w.error_message
    w.attempt_count w.now

/-- A sequence of `upsert_transcript` calls to the same video id, threading
the stored row through. -/
def applyWrites (vid : String) (st : Option TranscriptRow) :
    List UpsertArgs → Option TranscriptRow
  | [] => st
  | w :: ws => applyWrites vid (some (applyUpsert vid st w)) ws

/-! ### Selection queries -/

/-- Sort key for `ORDER BY fetched_at ASC` (Postgres default: NULLS LAST). -/
def fetchedAtLE (a b : TranscriptRow) : Bool :=
  match a.fetched_at, b.fetched_at with
  | none, none => true
  | none, some _ => false
  | some _, none => true
  | some x, some y => decide (x ≤ y)

/-- Insertion step of the insertion sort realising `ORDER BY fetched_at ASC`. -/
def insertFetchedAt (r : TranscriptRow) : List TranscriptRow → List TranscriptRow
  | [] => [r]
  | x :: xs => if fetchedAtLE r x then r :: x :: xs else x :: insertFetchedAt r xs

/-- Insertion sort realising `ORDER BY fetched_at ASC`. -/
def sortFetchedAt : List TranscriptRow → List TranscriptRow
  | [] => []
  | x :: xs => insertFetchedAt x (sortFetchedAt xs)

/-- The WHERE clause of `fetch_failed_video_ids`:
`transcript_text IS NULL AND fetch_status NOT IN ('disabled','unavailable')
AND COALESCE(fetch_attempts, 1) < max_attempts`. -/
def retryableWhere (max_attempts : Int) (t : TranscriptRow) : Bool :=
  t.transcript_text.isNone
    && !(t.fetch_status == "disabled" || t.fetch_status == "unavailable")
    && decide (t.fetch_attempts.getD 1 < max_attempts)

/-- `fetch_failed_video_ids`: rows of the transcripts relation passing the
retryable filter, ordered by `fetched_at` ascending, projected to
`(video_id, COALESCE(fetch_attempts, 1))`, limited. -/
def fetch_failed_video_ids (rows : List TranscriptRow) (limit : Nat)
    (max_attempts : Int) : List (String × Int) :=
  (((sortFetchedAt (rows.filter (retryableWhere max_attempts))).map
      (fun t => (t.video_id, t.fetch_attempts.getD 1))).take limit)

/-- Sort key for `ORDER BY scraped_at DESC`. -/
def scrapedAtGE (a b : VideoRow) : Bool :=
  decide (b.scraped_at ≤ a.scraped_at)

/-- Insertion step of the insertion sort realising `ORDER BY scraped_at DESC`. -/
def insertScrapedAt (r : VideoRow) : List VideoRow → List VideoRow
  | [] => [r]
  | x :: xs => if scrapedAtGE r x then r :: x :: xs else x :: insertScrapedAt r xs

/-- Insertion sort realising `ORDER BY scraped_at DESC`. -/
def sortScrapedAt : List VideoRow → List VideoRow
  | [] => []
  | x :: xs => insertScrapedAt x (sortScrapedAt xs)

/-- `fetch_pending_video_ids`: catalog videos with no transcript row at all
(`LEFT JOIN .. WHERE t.video_id IS NULL`), most recently scraped first,
limited. -/
def fetch_pending_video_ids (videos : List VideoRow)
    (transcripts : List TranscriptRow) (limit : Nat) : List String :=
  ((sortScrapedAt (videos.filter
      (fun v => !(transcripts.any (fun t => t.video_id == v.video_id))))).map
    VideoRow.video_id).take limit

/-- The batch of video ids selected by `main` for one run: `main` calls only
`fetch_pending_video_ids(conn, batch_limit)` (fetch_transcripts.py line 309);
`fetch_failed_video_ids` is defined in the module but never invoked. -/
def main_selected_batch (videos : List VideoRow)
    (transcripts : List TranscriptRow) (batch_limit : Nat) : List String :=
  fetch_pending_video_ids videos transcripts batch_limit

/-! ### The retry engine -/

/-- The outcome of one call to the provider (`api.fetch` followed by
`to_raw_data()`): either the fetched segments with the language actually
used, or one of the library's typed exceptions, or any other exception. -/
inductive ProviderOutcome where
  | fetched (languageCode : String) (segments : List Segment)
  | transcriptsDisabled (msg : String)
  | noTranscriptFound (msg : String)
  | noTranscriptAvailable (msg : String)
  | notTranslatable (msg : String)
  | translationLanguageNotAvailable (msg : String)
  | videoUnavailable (msg : String)
  | tooManyRequests (msg : String)
  | unclassified (msg : String)
deriving DecidableEq, Repr

/-- `@dataclass FetchResult` — result of a transcript fetch attempt. -/
structure FetchResult where
  video_id : String
  status : FetchStatus
  language : Option String
  transcript : Option (List Segment)
  error_message : Option String
deriving DecidableEq, Repr

/-- A run of `fetch_transcript_with_retry` together with its observable
trace: how many times the provider was invoked and which sleeps happened,
in order (both the post-success pacing sleep and the backoff sleeps). -/
structure RetryTrace where
  result : FetchResult
  providerCalls : Nat
  sleeps : List ℚ
deriving DecidableEq, Repr

/-- The body of `for attempt in range(max_retries)`, recursing on the number
of remaining iterations; `attempt` is the 0-based index of the current
iteration, `calls` and `sleeps` accumulate the trace.  Falling out of the
loop (`remaining = 0`) is the final `return FetchResult(.., ERROR,
last_error or "Unknown error after retries")`. -/
def fetchRetryAux (provider : Nat → ProviderOutcome) (video_id : String)
    (max_retries : Int) (retry_delay sleep_seconds : ℚ) :
    Option String → Nat → Nat → Nat → List ℚ → RetryTrace
  | last_error, _, 0, calls, sleeps =>
      { result := { video_id := video_id, status := .error, language := none,
                    transcript := none,
                    error_message := some (last_error.getD "Unknown error after retries") }
        providerCalls := calls
        sleeps := sleeps }
  | _, attempt, remaining + 1, calls, sleeps =>
      match provider attempt with
      | .fetched lang segs =>
          { result := { video_id := video_id, status := .success,
                        language := some lang, transcript := some segs,
                        error_message := none }
            providerCalls := calls + 1
            sleeps := sleeps ++ [sleep_seconds] }
      | .transcriptsDisabled m =>
          { result := { video_id := video_id, status := .disabled, language := none,
                        transcript := none, error_message := some m }
            providerCalls := calls + 1
            sleeps := sleeps }
      | .noTranscriptFound m =>
          { result := { video_id := video_id, status := .notFound, language := none,
                        transcript := none, error_message := some m }
            providerCalls := calls + 1
            sleeps := sleeps }
      | .noTranscriptAvailable m =>
          { result := { video_id := video_id, status := .notFound, language := none,
                        transcript := none, error_message := some m }
            providerCalls := calls + 1
            sleeps := sleeps }
      | .notTranslatable m =>
          { result := { video_id := video_id, status := .notFound, language := none,
                        transcript := none, error_message := some m }
            providerCalls := calls + 1
            sleeps := sleeps }
      | .translationLanguageNotAvailable m =>
          { result := { video_id := video_id, status := .notFound, language := none,
                        transcript := none, error_message := some m }
            providerCalls := calls + 1
            sleeps := sleeps }
      | .videoUnavailable m =>
          { result := { video_id := video_id, status := .unavailable, language := none,
                        transcript := none, error_message := some m }
            providerCalls := calls + 1
            sleeps := sleeps }
      | .tooManyRequests m =>
          if (attempt : Int) < max_retries - 1 then
            fetchRetryAux provider video_id max_retries retry_delay sleep_seconds
              (some m) (attempt + 1) remaining (calls + 1)
              (sleeps ++ [retry_delay * 2 ^ attempt])
          else
            { result := { video_id := video_id, status := .rateLimited, language := none,
                          transcript := none, error_message := some m }
              providerCalls := calls + 1
              sleeps := sleeps }
      | .unclassified m =>
          if (attempt : Int) < max_retries - 1 then
            fetchRetryAux provider video_id max_retries retry_delay sleep_seconds
              (some m) (attempt + 1) remaining (calls + 1)
              (sleeps ++ [retry_delay * 2 ^ attempt])
          else
            { result := { video_id := video_id, status := .error, language := none,
                          transcript := none, error_message := some m }
              providerCalls := calls + 1
              sleeps := sleeps }

/-- `fetch_transcript_with_retry`: run the loop from attempt 0 with no
recorded error.  `range(max_retries)` has `max_retries.toNat` iterations
(empty when `max_retries ≤ 0`). -/
def fetch_transcript_with_retry (provider : Nat → ProviderOutcome)
    (video_id : String) (max_retries : Int)
    (retry_delay sleep_seconds : ℚ) : RetryTrace :=
  fetchRetryAux provider video_id max_retries retry_delay sleep_seconds
    none 0 max_retries.toNat 0 []

/-! ### Invariants and sample data -/

/-- The paired-nullness property of a stored row: plain text and structured
segments are both present or both absent. -/
def pairedNull (r : TranscriptRow) : Prop :=
  r.transcript_text = none ↔ r.transcript_json = none

/-- A sample caption segment. -/
def sampleSeg : Segment :=
  { text := "hi", startOffset := 0, duration := 2 }

/-- A stored row holding a previously captured successful transcript. -/
def storedRow : TranscriptRow :=
  { video_id := "v1", language := some "en", transcript_text := some "hi"
    transcript_json := some [sampleSeg], fetch_status := "success"
    error_message := none, fetch_attempts := some 1, fetched_at := some 0 }

/-- A stored row recording a `not_found` outcome with no content. -/
def notFoundRow : TranscriptRow :=
  { video_id := "v1", language := none, transcript_text := none
    transcript_json := none, fetch_status := "not_found"
    error_message := some "no transcript", fetch_attempts := some 1
    fetched_at := some 0 }

/-- A stored row recording a `disabled` outcome with no content. -/
def disabledRow : TranscriptRow :=
  { video_id := "v1", language := none, transcript_text := none
    transcript_json := none, fetch_status := "disabled"
    error_message := some "subtitles are disabled", fetch_attempts := some 1
    fetched_at := some 0 }

/-- A stored row recording a `rate_limited` outcome with no content. -/
def rateLimitedRow : TranscriptRow :=
  { video_id := "v1", language := none, transcript_text := none
    transcript_json := none, fetch_status := "rate_limited"
    error_message := some "too many requests", fetch_attempts := some 1
    fetched_at := some 0 }

/-- A catalog entry for the same video id as the sample transcript rows. -/
def catalogRow : VideoRow :=
  { video_id := "v1", scraped_at := 10 }

/-- Sample write: a successful fetch persisted with the default attempt count. -/
def wSuccess : UpsertArgs :=
  { language := some "en", transcript := some [sampleSeg]
    status := .success, error_message := none, attempt_count := 1, now := 1 }

/-- Sample write: a failed retry persisted with no content. -/
def wFail : UpsertArgs :=
  { language := none, transcript := none, status := .rateLimited
    error_message := some "429", attempt_count := 1, now := 2 }

/-! ## Theorems -/

/-- `coalesce` absorbs a repeated first argument. -/
theorem coalesce_self {α : Type} (x y : Option α) :
    coalesce x (coalesce x y) = coalesce x y := by
  cases x <;> simp [coalesce]

/-- `coalesce` of equal arguments. -/
theorem coalesce_idem {α : Type} (x : Option α) : coalesce x x = x := by
  cases x <;> simp [coalesce]

/-- The computed text and json parameters are null under exactly the same
condition (the Python truthiness test on `transcript`). -/
theorem transcript_text_none_iff_json_none (t : Option (List Segment)) :
    transcript_text_of t = none ↔ transcript_json_of t = none := by
  cases t with
  | none => simp [transcript_text_of, transcript_json_of]
  | some segs =>
      cases segs <;> simp [transcript_text_of, transcript_json_of]

/-- Claim C1 — coalesce law of the upsert: on a conflict-update, a write
whose outcome carries no transcript content (`None` or an empty segment
list) leaves the stored `transcript_text` and `transcript_json` unchanged,
while a write carrying a non-empty segment list replaces both with the new
values. -/
theorem upsert_coalesce_content (old : TranscriptRow) (vid : String)
    (lang : Option String) (status : FetchStatus) (err : Option String)
    (ac : Int) (now : Nat) :
    (∀ transcript : Option (List Segment),
        transcript = none ∨ transcript = some [] →
        (upsert_transcript (some old) vid lang transcript status err ac now).transcript_text
            = old.transcript_text ∧
        (upsert_transcript (some old) vid lang transcript status err ac now).transcript_json
            = old.transcript_json) ∧
    (∀ segs : List Segment, segs ≠ [] →
        (upsert_transcript (some old) vid lang (some segs) status err ac now).transcript_text
            = some ((String.intercalate " " (segs.map Segment.text)).trim) ∧
        (upsert_transcript (some old) vid lang (some segs) status err ac now).transcript_json
            = some segs) := by
  constructor
  · rintro transcript (rfl | rfl) <;>
      simp [upsert_transcript, transcript_text_of, transcript_json_of, coalesce]
  · intro segs hsegs
    cases segs with
    | nil => exact absurd rfl hsegs
    | cons a as =>
        simp [upsert_transcript, transcript_text_of, transcript_json_of, coalesce]

/-- Witness for C1 at concrete inputs: a failed retry with no content leaves
`storedRow`'s content intact, and a success write with one segment replaces
it. -/
theorem upsert_coalesce_content_witness :
    ((upsert_transcript (some storedRow) "v1" none none FetchStatus.rateLimited
        (some "429") 1 7).transcript_text = storedRow.transcript_text ∧
     (upsert_transcript (some storedRow) "v1" none none FetchStatus.rateLimited
        (some "429") 1 7).transcript_json = storedRow.transcript_json) ∧
    ((upsert_transcript (some storedRow) "v1" (some "en") (some [sampleSeg])
        FetchStatus.success none 1 7).transcript_text
          = some ((String.intercalate " " ([sampleSeg].map Segment.text)).trim) ∧
     (upsert_transcript (some storedRow) "v1" (some "en") (some [sampleSeg])
        FetchStatus.success none 1 7).transcript_json = some [sampleSeg]) := by
  constructor
  · exact (upsert_coalesce_content storedRow "v1" none FetchStatus.rateLimited
      (some "429") 1 7).1 none (Or.inl rfl)
  · exact (upsert_coalesce_content storedRow "v1" (some "en") FetchStatus.success
      none 1 7).2 [sampleSeg] (by simp)

/-- Claim C7 — idempotence of persisting the same SUCCESS outcome twice:
after the second write the stored `transcript_text`, `transcript_json`,
`language`, `fetch_status`, `error_message` and `video_id` are identical to
the state after the first write (only `fetch_attempts` and `fetched_at`
differ between the two states). -/
theorem upsert_success_idempotent (st : Option TranscriptRow) (vid : String)
    (lang : Option String) (transcript : Option (List Segment))
    (err : Option String) (ac1 ac2 : Int) (t1 t2 : Nat) :
    (upsert_transcript (some (upsert_transcript st vid lang transcript
        FetchStatus.success err ac1 t1)) vid lang transcript
        FetchStatus.success err ac2 t2).transcript_text
      = (upsert_transcript st vid lang transcript
          FetchStatus.success err ac1 t1).transcript_text ∧
    (upsert_transcript (some (upsert_transcript st vid lang transcript
        FetchStatus.success err ac1 t1)) vid lang transcript
        FetchStatus.success err ac2 t2).transcript_json
      = (upsert_transcript st vid lang transcript
          FetchStatus.success err ac1 t1).transcript_json ∧
    (upsert_transcript (some (upsert_transcript st vid lang transcript
        FetchStatus.success err ac1 t1)) vid lang transcript
        FetchStatus.success err ac2 t2).language
      = (upsert_transcript st vid lang transcript
          FetchStatus.success err ac1 t1).language ∧
    (upsert_transcript (some (upsert_transcript st vid lang transcript
        FetchStatus.success err ac1 t1)) vid lang transcript
        FetchStatus.success err ac2 t2).fetch_status
      = (upsert_transcript st vid lang transcript
          FetchStatus.success err ac1 t1).fetch_status ∧
    (upsert_transcript (some (upsert_transcript st vid lang transcript
        FetchStatus.success err ac1 t1)) vid lang transcript
        FetchStatus.success err ac2 t2).error_message
      = (upsert_transcript st vid lang transcript
          FetchStatus.success err ac1 t1).error_message ∧
    (upsert_transcript (some (upsert_transcript st vid lang transcript
        FetchStatus.success err ac1 t1)) vid lang transcript
        FetchStatus.success err ac2 t2).video_id
      = (upsert_transcript st vid lang transcript
          FetchStatus.success err ac1 t1).video_id := by
  cases st <;>
    simp [upsert_transcript, coalesce_self, coalesce_idem]

/-- Claim C8 — paired nullness: the insert path establishes
`transcript_text IS NULL ↔ transcript_json IS NULL`, and the coalescing
conflict-update preserves it from any state in which it already held. -/
theorem upsert_paired_null (vid : String) (lang : Option String)
    (transcript : Option (List Segment)) (status : FetchStatus)
    (err : Option String) (ac : Int) (now : Nat) :
    pairedNull (upsert_transcript none vid lang transcript status err ac now) ∧
    ∀ old : TranscriptRow, pairedNull old →
      pairedNull (upsert_transcript (some old) vid lang transcript status err ac now) := by
  constructor
  · simpa [pairedNull, upsert_transcript] using
      transcript_text_none_iff_json_none transcript
  · intro old hold
    have h := transcript_text_none_iff_json_none transcript
    simp only [pairedNull, upsert_transcript]
    rcases htext : transcript_text_of transcript with _ | a <;>
      rcases hjson : transcript_json_of transcript with _ | b <;>
      simp_all [coalesce, pairedNull]

/-- Witness for C8 at concrete inputs: paired nullness holds after an insert
of a failed outcome and after a contentless conflict-update of `storedRow`. -/
theorem upsert_paired_null_witness :
    pairedNull (upsert_transcript none "v1" none none FetchStatus.error
      (some "boom") 1 3) ∧
    pairedNull (upsert_transcript (some storedRow) "v1" none none
      FetchStatus.error (some "boom") 1 3) := by
  constructor
  · exact (upsert_paired_null "v1" none none FetchStatus.error (some "boom") 1 3).1
  · exact (upsert_paired_null "v1" none none FetchStatus.error (some "boom") 1 3).2
      storedRow (by simp [pairedNull, storedRow])

/-- Threading a write sequence from a row whose `fetch_attempts` is `some k`
yields a row with `fetch_attempts = some (k + length)`. -/
theorem applyWrites_attempts (vid : String) :
    ∀ (ws : List UpsertArgs) (r : TranscriptRow) (k : Int),
      r.fetch_attempts = some k →
      (applyWrites vid (some r) ws).map TranscriptRow.fetch_attempts
        = some (some (k + ws.length)) := by
  intro ws
  induction ws with
  | nil =>
      intro r k hk
      simp [applyWrites, hk]
  | cons w ws ih =>
      intro r k hk
      have hstep : (applyUpsert vid (some r) w).fetch_attempts = some (k + 1) := by
        simp [applyUpsert, upsert_transcript, hk]
      have := ih (applyUpsert vid (some r) w) (k + 1) hstep
      simp only [applyWrites, this, List.length_cons]
      congr 2
      push_cast
      ring

/-- Claim C2 — `fetch_attempts` counting: every conflict-update increments
the stored counter by exactly 1 (so it never decreases), and a sequence of
writes starting with an insert whose attempt count is the default 1 leaves
the counter equal to the number of writes performed, after every prefix. -/
theorem upsert_attempts_monotone (vid : String) (w : UpsertArgs)
    (ws : List UpsertArgs) (hfirst : w.attempt_count = 1) :
    (∀ (r : TranscriptRow) (w2 : UpsertArgs),
        (applyUpsert vid (some r) w2).fetch_attempts
          = r.fetch_attempts.map (fun a => a + 1)) ∧
    ∀ i : Nat, i ≤ ws.length →
      (applyWrites vid none (w :: ws.take i)).map TranscriptRow.fetch_attempts
        = some (some (1 + (i : Int))) := by
  constructor
  · intro r w2
    simp [applyUpsert, upsert_transcript]
  · intro i hi
    have h0 : (applyUpsert vid none w).fetch_attempts = some 1 := by
      simp [applyUpsert, upsert_transcript, hfirst]
    have h := applyWrites_attempts vid (ws.take i) (applyUpsert vid none w) 1 h0
    simp only [applyWrites]
    rw [h, List.length_take]
    congr 2
    omega

/-- Witness for C2 at concrete inputs: one conflict-update on `storedRow`
bumps the counter, and the sequence insert-then-two-failed-retries ends with
`fetch_attempts = 3`. -/
theorem upsert_attempts_monotone_witness :
    (applyUpsert "v1" (some storedRow) wFail).fetch_attempts
        = storedRow.fetch_attempts.map (fun a => a + 1) ∧
    (applyWrites "v1" none (wSuccess :: [wFail, wFail].take 2)).map
        TranscriptRow.fetch_attempts = some (some (1 + (2 : Int))) := by
  have h := upsert_attempts_monotone "v1" wSuccess [wFail, wFail] rfl
  exact ⟨h.1 storedRow wFail, h.2 2 (by decide)⟩

/-- Membership through the insertion step of the `fetched_at` sort. -/
theorem mem_insertFetchedAt {a r : TranscriptRow} :
    ∀ {l : List TranscriptRow}, a ∈ insertFetchedAt r l ↔ a = r ∨ a ∈ l := by
  intro l
  induction l with
  | nil => simp [insertFetchedAt]
  | cons x xs ih =>
      by_cases h : fetchedAtLE r x
      · simp [insertFetchedAt, h]
      · simp only [insertFetchedAt, h, Bool.false_eq_true, if_false,
          List.mem_cons, ih]
        tauto

/-- The `fetched_at` sort does not change membership. -/
theorem mem_sortFetchedAt {a : TranscriptRow} :
    ∀ {l : List TranscriptRow}, a ∈ sortFetchedAt l ↔ a ∈ l := by
  intro l
  induction l with
  | nil => simp [sortFetchedAt]
  | cons x xs ih => simp [sortFetchedAt, mem_insertFetchedAt, ih]

/-- Every pair returned by `fetch_failed_video_ids` is the projection of a
stored row satisfying the query's WHERE clause. -/
theorem mem_fetch_failed {p : String × Int} {rows : List TranscriptRow}
    {limit : Nat} {maxA : Int}
    (hp : p ∈ fetch_failed_video_ids rows limit maxA) :
    ∃ t, t ∈ rows ∧ retryableWhere maxA t = true ∧
      p = (t.video_id, t.fetch_attempts.getD 1) := by
  have h1 := List.mem_of_mem_take hp
  obtain ⟨t, ht, hteq⟩ := List.mem_map.mp h1
  have h2 := mem_sortFetchedAt.mp ht
  have h3 := List.mem_filter.mp h2
  exact ⟨t, h3.1, h3.2, hteq.symm⟩

/-- Claim C5, as amended — the retry-eligible selection never returns an
identifier whose stored status is `disabled` or `unavailable` (the only
statuses the query's `NOT IN` list excludes), regardless of
`fetch_attempts`; `video_id` is the relation's unique key. -/
theorem retry_selection_excludes_disabled_unavailable
    (rows : List TranscriptRow) (limit : Nat) (maxA : Int)
    (r : TranscriptRow) (a : Int) (hr : r ∈ rows)
    (hst : r.fetch_status = "disabled" ∨ r.fetch_status = "unavailable")
    (huniq : ∀ t ∈ rows, t.video_id = r.video_id → t = r) :
    (r.video_id, a) ∉ fetch_failed_video_ids rows limit maxA := by
  intro hmem
  obtain ⟨t, htrows, hfilt, heq⟩ := mem_fetch_failed hmem
  have hid : t.video_id = r.video_id := (congrArg Prod.fst heq).symm
  have hteq : t = r := huniq t htrows hid
  subst hteq
  simp only [retryableWhere, Bool.and_eq_true, Bool.not_eq_true',
    Bool.or_eq_false_iff, beq_eq_false_iff_ne, ne_eq] at hfilt
  rcases hst with h | h
  · exact hfilt.1.2.1 h
  · exact hfilt.1.2.2 h

/-- Counterexample to claim C5 as stated: a stored `not_found` row with no
content and one attempt IS returned by the selection (the query's status
filter excludes only `disabled` and `unavailable`). -/
theorem retry_selection_not_found_included :
    notFoundRow.fetch_status = FetchStatus.notFound.value ∧
    ("v1", 1) ∈ fetch_failed_video_ids [notFoundRow] 10 3 := by
  constructor
  · rfl
  · decide

/-- Witness for C5 (amended) at concrete inputs: the `disabled` row is not
selected. -/
theorem retry_selection_excludes_disabled_witness :
    ("v1", 1) ∉ fetch_failed_video_ids [disabledRow] 10 3 := by
  have h := retry_selection_excludes_disabled_unavailable [disabledRow] 10 3
    disabledRow 1 (by simp) (Or.inl rfl)
    (by intro t ht _; simpa using ht)
  exact h

/-- Claim C9 — the retry-eligible selection also filters on content: a
stored row whose `transcript_text` is non-null is never returned, whatever
its status or attempt count (`video_id` is the relation's unique key). -/
theorem retry_selection_requires_null_content
    (rows : List TranscriptRow) (limit : Nat) (maxA : Int)
    (r : TranscriptRow) (a : Int) (hr : r ∈ rows)
    (htext : r.transcript_text ≠ none)
    (huniq : ∀ t ∈ rows, t.video_id = r.video_id → t = r) :
    (r.video_id, a) ∉ fetch_failed_video_ids rows limit maxA := by
  intro hmem
  obtain ⟨t, htrows, hfilt, heq⟩ := mem_fetch_failed hmem
  have hid : t.video_id = r.video_id := (congrArg Prod.fst heq).symm
  have hteq : t = r := huniq t htrows hid
  subst hteq
  simp only [retryableWhere, Bool.and_eq_true, Option.isNone_iff_eq_none] at hfilt
  exact htext hfilt.1.1

/-- Witness for C9 at concrete inputs: `storedRow` holds a transcript (its
status is even `success`) and is not selected. -/
theorem retry_selection_requires_null_content_witness :
    ("v1", 1) ∉ fetch_failed_video_ids [storedRow] 10 3 := by
  have h := retry_selection_requires_null_content [storedRow] 10 3
    storedRow 1 (by simp) (by simp [storedRow])
    (by intro t ht _; simpa using ht)
  exact h

/-- Claim C6 evidence — the failing input: a stored `rate_limited` row with
one attempt (below the ceiling of 3) satisfies the retry-eligible query,
but the batch `main` actually selects for a run containing exactly that
video in the catalog is empty: `main` only ever calls
`fetch_pending_video_ids`, and a video with any transcript row is not
pending. -/
theorem main_never_reselects_rate_limited :
    rateLimitedRow.fetch_status = FetchStatus.rateLimited.value ∧
    rateLimitedRow.fetch_attempts.getD 1 < 3 ∧
    fetch_failed_video_ids [rateLimitedRow] 25 3 = [("v1", 1)] ∧
    main_selected_batch [catalogRow] [rateLimitedRow] 25 = [] := by
  refine ⟨rfl, by decide, by decide, by decide⟩

/-- Claim C3 — structural-permanent outcomes consume exactly one attempt:
when at least one attempt runs, a first-attempt `TranscriptsDisabled` makes
the engine return `DISABLED` after exactly one provider call and no sleep;
the four no-transcript exceptions return `NOT_FOUND` and `VideoUnavailable`
returns `UNAVAILABLE`, likewise immediately. -/
theorem fetch_retry_structural_one_attempt (provider : Nat → ProviderOutcome)
    (vid : String) (mr : Int) (d s : ℚ) (hmr : 1 ≤ mr) (msg : String) :
    (provider 0 = ProviderOutcome.transcriptsDisabled msg →
      fetch_transcript_with_retry provider vid mr d s =
        { result := { video_id := vid, status := .disabled, language := none,
                      transcript := none, error_message := some msg }
          providerCalls := 1, sleeps := [] }) ∧
    (provider 0 = ProviderOutcome.noTranscriptFound msg →
      fetch_transcript_with_retry provider vid mr d s =
        { result := { video_id := vid, status := .notFound, language := none,
                      transcript := none, error_message := some msg }
          providerCalls := 1, sleeps := [] }) ∧
    (provider 0 = ProviderOutcome.noTranscriptAvailable msg →
      fetch_transcript_with_retry provider vid mr d s =
        { result := { video_id := vid, status := .notFound, language := none,
                      transcript := none, error_message := some msg }
          providerCalls := 1, sleeps := [] }) ∧
    (provider 0 = ProviderOutcome.notTranslatable msg →
      fetch_transcript_with_retry provider vid mr d s =
        { result := { video_id := vid, status := .notFound, language := none,
                      transcript := none, error_message := some msg }
          providerCalls := 1, sleeps := [] }) ∧
    (provider 0 = ProviderOutcome.translationLanguageNotAvailable msg →
      fetch_transcript_with_retry provider vid mr d s =
        { result := { video_id := vid, status := .notFound, language := none,
                      transcript := none, error_message := some msg }
          providerCalls := 1, sleeps := [] }) ∧
    (provider 0 = ProviderOutcome.videoUnavailable msg →
      fetch_transcript_with_retry provider vid mr d s =
        { result := { video_id := vid, status := .unavailable, language := none,
                      transcript := none, error_message := some msg }
          providerCalls := 1, sleeps := [] }) := by
  obtain ⟨n, hn⟩ : ∃ n, mr.toNat = n + 1 := ⟨mr.toNat - 1, by omega⟩
  refine ⟨?_, ?_, ?_, ?_, ?_, ?_⟩ <;> intro hp <;>
    simp [fetch_transcript_with_retry, hn, fetchRetryAux, hp]

/-- Witness for C3 at concrete inputs (`max_retries = 5`): an
always-disabled provider yields `DISABLED` after one call and no sleep. -/
theorem fetch_retry_structural_one_attempt_witness :
    fetch_transcript_with_retry
        (fun _ => ProviderOutcome.transcriptsDisabled "subtitles disabled")
        "v1" 5 2 1 =
      { result := { video_id := "v1", status := .disabled, language := none,
                    transcript := none,
                    error_message := some "subtitles disabled" }
        providerCalls := 1, sleeps := [] } :=
  (fetch_retry_structural_one_attempt
      (fun _ => ProviderOutcome.transcriptsDisabled "subtitles disabled")
      "v1" 5 2 1 (by decide) "subtitles disabled").1 rfl

/-- An always-rate-limited provider drives the loop to exhaustion: each
iteration sleeps `retry_delay * 2 ^ attempt` while attempts remain, and the
final iteration returns `RATE_LIMITED` carrying the last error text. -/
theorem fetchRetryAux_rate_limited (provider : Nat → ProviderOutcome)
    (m : Nat → String) (vid : String) (mr : Int) (d s : ℚ)
    (hp : ∀ i, provider i = ProviderOutcome.tooManyRequests (m i)) :
    ∀ (remaining attempt calls : Nat) (lastErr : Option String)
      (sleeps : List ℚ),
      1 ≤ remaining → (attempt : Int) + remaining = mr →
      fetchRetryAux provider vid mr d s lastErr attempt remaining calls sleeps =
        { result := { video_id := vid, status := .rateLimited, language := none,
                      transcript := none,
                      error_message := some (m (mr.toNat - 1)) }
          providerCalls := calls + remaining
          sleeps := sleeps ++ (List.range' attempt (mr.toNat - 1 - attempt)).map
              (fun i => d * 2 ^ i) } := by
  intro remaining
  induction remaining with
  | zero => intro attempt calls lastErr sleeps h1 h2; omega
  | succ n ih =>
      intro attempt calls lastErr sleeps h1 h2
      simp only [fetchRetryAux, hp attempt]
      by_cases hc : (attempt : Int) < mr - 1
      · have hn1 : 1 ≤ n := by omega
        rw [if_pos hc, ih (attempt + 1) (calls + 1) (some (m attempt)) _ hn1
          (by push_cast; push_cast at h2; omega)]
        have hcount : mr.toNat - 1 - attempt = (mr.toNat - 1 - (attempt + 1)) + 1 := by
          omega
        simp only [RetryTrace.mk.injEq, true_and, eq_self_iff_true]
        refine ⟨by omega, ?_⟩
        rw [hcount, List.range'_succ]
        simp [List.append_assoc]
      · have hn0 : n = 0 := by omega
        subst hn0
        have ha : attempt = mr.toNat - 1 := by omega
        rw [if_neg hc, ha]
        simp [List.range']

/-- An always-unclassified-exception provider drives the loop to exhaustion
identically, ending in `ERROR` with the last error text. -/
theorem fetchRetryAux_unclassified (provider : Nat → ProviderOutcome)
    (m : Nat → String) (vid : String) (mr : Int) (d s : ℚ)
    (hp : ∀ i, provider i = ProviderOutcome.unclassified (m i)) :
    ∀ (remaining attempt calls : Nat) (lastErr : Option String)
      (sleeps : List ℚ),
      1 ≤ remaining → (attempt : Int) + remaining = mr →
      fetchRetryAux provider vid mr d s lastErr attempt remaining calls sleeps =
        { result := { video_id := vid, status := .error, language := none,
                      transcript := none,
                      error_message := some (m (mr.toNat - 1)) }
          providerCalls := calls + remaining
          sleeps := sleeps ++ (List.range' attempt (mr.toNat - 1 - attempt)).map
              (fun i => d * 2 ^ i) } := by
  intro remaining
  induction remaining with
  | zero => intro attempt calls lastErr sleeps h1 h2; omega
  | succ n ih =>
      intro attempt calls lastErr sleeps h1 h2
      simp only [fetchRetryAux, hp attempt]
      by_cases hc : (attempt : Int) < mr - 1
      · have hn1 : 1 ≤ n := by omega
        rw [if_pos hc, ih (attempt + 1) (calls + 1) (some (m attempt)) _ hn1
          (by push_cast; push_cast at h2; omega)]
        have hcount : mr.toNat - 1 - attempt = (mr.toNat - 1 - (attempt + 1)) + 1 := by
          omega
        simp only [RetryTrace.mk.injEq, true_and, eq_self_iff_true]
        refine ⟨by omega, ?_⟩
        rw [hcount, List.range'_succ]
        simp [List.append_assoc]
      · have hn0 : n = 0 := by omega
        subst hn0
        have ha : attempt = mr.toNat - 1 := by omega
        rw [if_neg hc, ha]
        simp [List.range']

/-- Claim C4 — transient outcomes honor the bounded exponential backoff:
a provider that raises rate-limit (resp. any unclassified) exceptions on
every attempt makes exactly `max_retries` provider calls, sleeping
`retry_delay * 2 ^ attempt_index` between consecutive attempts, and returns
`RATE_LIMITED` (resp. `ERROR`) with the last error's text. -/
theorem fetch_retry_transient_backoff (vid : String) (mr : Int) (d s : ℚ)
    (providerR providerU : Nat → ProviderOutcome) (mR mU : Nat → String)
    (hmr : 1 ≤ mr)
    (hR : ∀ i, providerR i = ProviderOutcome.tooManyRequests (mR i))
    (hU : ∀ i, providerU i = ProviderOutcome.unclassified (mU i)) :
    fetch_transcript_with_retry providerR vid mr d s =
      { result := { video_id := vid, status := .rateLimited, language := none,
                    transcript := none,
                    error_message := some (mR (mr.toNat - 1)) }
        providerCalls := mr.toNat
        sleeps := (List.range (mr.toNat - 1)).map (fun i => d * 2 ^ i) } ∧
    fetch_transcript_with_retry providerU vid mr d s =
      { result := { video_id := vid, status := .error, language := none,
                    transcript := none,
                    error_message := some (mU (mr.toNat - 1)) }
        providerCalls := mr.toNat
        sleeps := (List.range (mr.toNat - 1)).map (fun i => d * 2 ^ i) } := by
  constructor
  · rw [fetch_transcript_with_retry,
      fetchRetryAux_rate_limited providerR mR vid mr d s hR mr.toNat 0 0 none []
        (by omega) (by omega)]
    simp [List.range_eq_range']
  · rw [fetch_transcript_with_retry,
      fetchRetryAux_unclassified providerU mU vid mr d s hU mr.toNat 0 0 none []
        (by omega) (by omega)]
    simp [List.range_eq_range']

/-- Witness for C4 at concrete inputs (`max_retries = 3`, `retry_delay = 2`):
three provider calls, sleeps of 2 and 4 between attempts, terminal
`RATE_LIMITED` resp. `ERROR` with the last error text. -/
theorem fetch_retry_transient_backoff_witness :
    fetch_transcript_with_retry (fun _ => ProviderOutcome.tooManyRequests "429")
        "v1" 3 2 1 =
      { result := { video_id := "v1", status := .rateLimited, language := none,
                    transcript := none, error_message := some "429" }
        providerCalls := 3, sleeps := [2, 4] } ∧
    fetch_transcript_with_retry (fun _ => ProviderOutcome.unclassified "boom")
        "v1" 3 2 1 =
      { result := { video_id := "v1", status := .error, language := none,
                    transcript := none, error_message := some "boom" }
        providerCalls := 3, sleeps := [2, 4] } := by
  have h := fetch_retry_transient_backoff "v1" 3 2 1
    (fun _ => ProviderOutcome.tooManyRequests "429")
    (fun _ => ProviderOutcome.unclassified "boom")
    (fun _ => "429") (fun _ => "boom")
    (by decide) (fun _ => rfl) (fun _ => rfl)
  have hrange : List.range ((3 : Int).toNat - 1) = [0, 1] := rfl
  constructor
  · rw [h.1]
    simp only [hrange, List.map_cons, List.map_nil]
    norm_num
    omega
  · rw [h.2]
    simp only [hrange, List.map_cons, List.map_nil]
    norm_num
    omega

/-- Claim C10 — with `max_retries ≤ 0` the loop body never runs: the
provider is never invoked (zero calls, zero sleeps) and the engine returns
`ERROR` with `error_message = "Unknown error after retries"`. -/
theorem fetch_retry_nonpositive_no_call (provider : Nat → ProviderOutcome)
    (vid : String) (mr : Int) (d s : ℚ) (h : mr ≤ 0) :
    fetch_transcript_with_retry provider vid mr d s =
      { result := { video_id := vid, status := .error, language := none,
                    transcript := none,
                    error_message := some "Unknown error after retries" }
        providerCalls := 0, sleeps := [] } := by
  have hz : mr.toNat = 0 := by omega
  simp [fetch_transcript_with_retry, hz, fetchRetryAux]

/-- Witness for C10 at a concrete input: `max_retries = 0` with a provider
that would succeed — the engine still returns the fall-through `ERROR`. -/
theorem fetch_retry_nonpositive_no_call_witness :
    fetch_transcript_with_retry
        (fun _ => ProviderOutcome.fetched "en" [sampleSeg]) "v1" 0 2 1 =
      { result := { video_id := "v1", status := .error, language := none,
                    transcript := none,
                    error_message := some "Unknown error after retries" }
        providerCalls := 0, sleeps := [] } :=
  fetch_retry_nonpositive_no_call
    (fun _ => ProviderOutcome.fetched "en" [sampleSeg]) "v1" 0 2 1 (by decide)

end FetchTranscripts
